import Mathlib

/-!
# Verification of the markdown blog publisher

A shallow embedding of `publish_blog.py` (the functional core of the
`md-blog-hostinger` repository) together with proofs and refutations of the
specification's claims.

Strings manipulated by the algorithms are modelled as `List Char`; the
character-level primitives (`pyIsSpace`, `pyIsWord`, `pyLower`, `pyUpper`)
embed Python's `str` semantics for ASCII text, which is the domain the
specification's slug and title claims range over.
-/

namespace Blog

/-- Python `\s` (ASCII range): space, tab, newline, carriage return,
vertical tab, form feed. -/
def pyIsSpace (c : Char) : Bool :=
  c = ' ' || c = '\t' || c = '\n' || c = '\r' || c = '\x0b' || c = '\x0c'

/-- Python `\w` (ASCII range): letters, digits, underscore. -/
def pyIsWord (c : Char) : Bool :=
  c.isAlpha || c.isDigit || c = '_'

/-- Python `str.lower` on an ASCII character: shift `A`-`Z` down by 32. -/
def pyLower (c : Char) : Char :=
  if c.isUpper then Char.ofNat (c.toNat + 32) else c

/-- Python `str.upper` on an ASCII character: shift `a`-`z` up by 32. -/
def pyUpper (c : Char) : Char :=
  if c.isLower then Char.ofNat (c.toNat - 32) else c

/-- Python `str.strip()`: remove leading and trailing whitespace. -/
def pyStrip (l : List Char) : List Char :=
  ((l.dropWhile pyIsSpace).reverse.dropWhile pyIsSpace).reverse

/-- The characters kept by `re.sub(r'[^\w\s-]', '', text)` in `slugify`:
word characters, whitespace, and hyphens survive; everything else is
deleted. -/
def keepChar (c : Char) : Bool :=
  pyIsWord c || pyIsSpace c || c = '-'

/-- A character matched by the class `[-\s]` of the second substitution in
`slugify`. -/
def dashOrSpace (c : Char) : Bool :=
  c = '-' || pyIsSpace c

/-- `re.sub(r'[-\s]+', '-', text)`, character by character: the flag
records whether the previous character belonged to a `[-\s]+` run. A
character opening a run emits the single replacement hyphen; the later
characters of the run emit nothing; characters outside runs pass through. -/
def collapseAux : Bool → List Char → List Char
  | _, [] => []
  | true, c :: rest =>
    if dashOrSpace c then collapseAux true rest else c :: collapseAux false rest
  | false, c :: rest =>
    if dashOrSpace c then '-' :: collapseAux true rest
    else c :: collapseAux false rest

/-- `re.sub(r'[-\s]+', '-', text)`: each maximal run of hyphens and
whitespace characters is replaced by a single hyphen. -/
def collapse (l : List Char) : List Char :=
  collapseAux false l

/-- `slugify` from `publish_blog.py`:
`text.lower().strip()`, then `re.sub(r'[^\w\s-]', '', text)`, then
`re.sub(r'[-\s]+', '-', text)`. -/
def slugify (s : List Char) : List Char :=
  collapse ((pyStrip (s.map pyLower)).filter keepChar)

/-! ## Dates and the `published_at` normalization -/

/-- The decimal digit character for `n < 10`. -/
def digitChar (n : Nat) : Char :=
  Char.ofNat (48 + n)

/-- Zero-padded two-digit decimal rendering (`%02d`) of `n < 100`, the width
every `month`/`day`/`hour`/`minute`/`second` field of a Python
`datetime.isoformat` occupies. -/
def pad2 (n : Nat) : List Char :=
  [digitChar (n / 10), digitChar (n % 10)]

/-- Zero-padded four-digit decimal rendering (`%04d`) of `n < 10000`, the
width a Python `datetime` year (always in `1..9999`) occupies in
`isoformat`. -/
def pad4 (n : Nat) : List Char :=
  [digitChar (n / 1000), digitChar (n / 100 % 10), digitChar (n / 10 % 10),
    digitChar (n % 10)]

/-- A Python `datetime.datetime` value (fields within Python's ranges:
`1 ≤ year ≤ 9999`, etc.). -/
structure DateTimeV where
  year : Nat
  month : Nat
  day : Nat
  hour : Nat
  minute : Nat
  second : Nat
deriving DecidableEq

/-- A Python `datetime.date` value. -/
structure DateV where
  year : Nat
  month : Nat
  day : Nat
deriving DecidableEq

/-- `datetime.isoformat(sep=' ', timespec='seconds')`:
`YYYY-MM-DD HH:MM:SS`. -/
def fmtDateTime (v : DateTimeV) : List Char :=
  pad4 v.year ++ '-' :: pad2 v.month ++ '-' :: pad2 v.day ++
    ' ' :: pad2 v.hour ++ ':' :: pad2 v.minute ++ ':' :: pad2 v.second

/-- `date.isoformat()`: `YYYY-MM-DD`. -/
def fmtDate (v : DateV) : List Char :=
  pad4 v.year ++ '-' :: pad2 v.month ++ '-' :: pad2 v.day

/-- The value a YAML front-matter `date:` entry can carry once the YAML
parser has run: a parsed `datetime`, a parsed bare `date`, or any other
value kept as a string. (`None` / an absent key is modelled by `Option`
at the use site.) -/
inductive DateVal where
  | dt (v : DateTimeV)
  | dateOnly (v : DateV)
  | str (s : List Char)
deriving DecidableEq

/-- `_format_published_at` from `parse_markdown_file`: a `datetime` is
rendered as `YYYY-MM-DD HH:MM:SS`, a bare `date` as `YYYY-MM-DD`, `None`
or the empty string becomes `datetime.now()` formatted as
`'%Y-%m-%d %H:%M:%S'`, and any other value is kept via `str(value)`.
`now` is the current local time passed in explicitly. -/
def format_published_at (now : DateTimeV) : Option DateVal → List Char
  | some (.dt v) => fmtDateTime v
  | some (.dateOnly v) => fmtDate v
  | some (.str s) => if s = [] then fmtDateTime now else s
  | none => fmtDateTime now

/-! ## The post record and `parse_markdown_file` -/

/-- Python `str.title()` on ASCII text, tracking whether the previous
character was a letter: a letter after a non-letter is uppercased, a
letter after a letter is lowercased, other characters pass through. -/
def pyTitleAux : Bool → List Char → List Char
  | _, [] => []
  | prevAlpha, c :: rest =>
    (if c.isAlpha then (if prevAlpha then pyLower c else pyUpper c) else c)
      :: pyTitleAux c.isAlpha rest

/-- Python `str.title()` on ASCII text. -/
def pyTitleCase (s : List Char) : List Char :=
  pyTitleAux false s

/-- The YAML front-matter mapping of a post file, restricted to the keys
`parse_markdown_file` reads. `none` models an absent key (so
`metadata.get(key, default)` takes the default). -/
structure Metadata where
  title : Option (List Char) := none
  slug : Option (List Char) := none
  excerpt : Option (List Char) := none
  category : Option (List Char) := none
  tags : Option (List (List Char)) := none
  featured_image : Option (List Char) := none
  published : Option Bool := none
  date : Option DateVal := none

/-- The dictionary `parse_markdown_file` returns. -/
structure PostData where
  slug : List Char
  title : List Char
  content : List Char
  excerpt : List Char
  category : List Char
  tags : List (List Char)
  featured_image : Option (List Char)
  is_published : Bool
  published_at : List Char
deriving DecidableEq

/-- The pure tail of `parse_markdown_file`: given the file's stem (name
without suffix), its parsed front matter, the HTML the markdown library
produced from the body, and the current time, build the post record.
`title` defaults to `filepath.stem.replace('-', ' ').title()`, `slug`
to `slugify(title)`, and the remaining fields to the constants of the
source. -/
def parse_markdown_file (stem : List Char) (md : Metadata)
    (htmlContent : List Char) (now : DateTimeV) : PostData :=
  let title := md.title.getD
    (pyTitleCase (stem.map fun c => if c = '-' then ' ' else c))
  { slug := md.slug.getD (slugify title)
    title := title
    content := htmlContent
    excerpt := md.excerpt.getD []
    category := md.category.getD "general".toList
    tags := md.tags.getD []
    featured_image := md.featured_image
    is_published := md.published.getD true
    published_at := format_published_at now md.date }

/-! ## JSON values, HTTP outcomes, and the publishing client -/

/-- A parsed JSON value as Python's `json` module produces it:
`response.json()` may yield a dict, a list, a string, a number, a boolean
or `None` — not only dicts. -/
inductive JsonVal where
  | obj (fields : List (String × JsonVal))
  | arr (elems : List JsonVal)
  | str (s : String)
  | num (n : Int)
  | bool (b : Bool)
  | null

/-- Python truthiness of a parsed JSON value, as tested by
`if ... and result.get('success'):`. -/
def JsonVal.truthy : JsonVal → Bool
  | .obj fields => !fields.isEmpty
  | .arr elems => !elems.isEmpty
  | .str s => s ≠ ""
  | .num n => n ≠ 0
  | .bool b => b
  | .null => false

/-- A Python exception that can escape the modelled code: an
`AttributeError` from calling `.get` on a non-dict, or a parse failure
from `frontmatter.load`/`markdown` on an unreadable file. -/
inductive Exn where
  | attributeError
  | parseError (msg : String)
deriving DecidableEq

/-- `dict.get(key)` on the field list of a JSON object: the first binding
of the key, or `None` when the key is absent. -/
def objGet (fields : List (String × JsonVal)) (key : String) : JsonVal :=
  (((fields.filter (·.1 = key)).head?).map (·.2)).getD .null

/-- `result.get(key)` on a parsed JSON value: on a dict, the field or
`None`; on anything else Python raises `AttributeError` (lists, strings,
numbers and `None` have no `.get`). -/
def pyGet (j : JsonVal) (key : String) : Except Exn JsonVal :=
  match j with
  | .obj fields => .ok (objGet fields key)
  | _ => .error .attributeError

/-- What one HTTP round trip produced: a transport-level failure caught as
`requests.RequestException`, or a response carrying a status code and —
when the body was valid JSON — its parse (`none` models the `ValueError`
from `response.json()` on a non-JSON body). -/
inductive HttpOutcome where
  | netError (msg : String)
  | response (status : Nat) (json : Option JsonVal)

/-- The client configuration read from the environment: `API_URL` and
`API_KEY`, each possibly empty. -/
structure Config where
  apiUrl : String
  apiKey : String

/-- The guard `if not API_URL or not API_KEY` at the top of
`publish_post`. -/
def Config.ok (cfg : Config) : Bool :=
  cfg.apiUrl ≠ "" && cfg.apiKey ≠ ""

/-- Lines 117-118 of `publish_post`: `if draft: post_data['is_published'] =
False`. The mutated record is what goes out as the JSON body of the
create request. -/
def outgoingPayload (pd : PostData) (draft : Bool) : PostData :=
  if draft then { pd with is_published := false } else pd

/-- The JSON body `publish_post` POSTs to `{API_URL}?action=create`:
`none` when the configuration guard fails before any network call,
otherwise the (possibly draft-mutated) record. -/
def sentPayload (cfg : Config) (pd : PostData) (draft : Bool) :
    Option PostData :=
  if cfg.ok then some (outgoingPayload pd draft) else none

/-- `publish_post` from `publish_blog.py`, given the outcome `out` of its
HTTP round trip. Missing configuration, a network error, and a non-JSON
body each return `False` after printing. Otherwise line 146 evaluates
`response.status_code == 200 and result.get('success')` (short-circuit:
`.get` runs only on status 200, and raises `AttributeError` if the JSON
body is not a dict); if the test passes the function returns `True`, and
if not, line 153 evaluates `result.get('error', 'Unknown error')` (which
can also raise) and the function returns `False`. -/
def publish_post (cfg : Config) (_pd : PostData) (_draft : Bool)
    (out : HttpOutcome) : Except Exn Bool :=
  if !cfg.ok then .ok false
  else
    match out with
    | .netError _ => .ok false
    | .response _ none => .ok false
    | .response status (some result) =>
      if status = 200 then
        match pyGet result "success" with
        | .error e => .error e
        | .ok v =>
          if v.truthy then .ok true
          else
            match pyGet result "error" with
            | .error e => .error e
            | .ok _ => .ok false
      else
        match pyGet result "error" with
        | .error e => .error e
        | .ok _ => .ok false

/-- What `list_posts` prints, abstracted to one tag per `print` site. -/
inductive ListOut where
  | configError
  | networkError (msg : String)
  | nonJsonBody (status : Nat)
  | header
  | postRow (slug title category date : String)
  | noPosts
  | total (n : Nat)
  | apiError
deriving DecidableEq

/-- `list_posts` from `publish_blog.py`, given the outcome of its GET, as
the sequence of printed lines. The block that checks for a `posts` key
and prints the table (lines 222-237 of the source) is nested inside the
`except ValueError` handler *after* its `return` statement, so it is
unreachable: when the body parses as JSON the `try` suite succeeds, the
function falls off its end, and nothing is printed. -/
def list_posts (cfg : Config) (out : HttpOutcome) : List ListOut :=
  if cfg.apiUrl = "" then [.configError]
  else
    match out with
    | .netError msg => [.networkError msg]
    | .response status none => [.nonJsonBody status]
    | .response _ (some _) => []

/-! ## `process_path` and the process exit code

`process_path` is modelled relative to two oracles: `parse`, the outcome of
`parse_markdown_file` on a file (which raises — `.error` — on an
unparseable file), and `publish`, the outcome of `publish_post` on a
record (boolean result, or an escaping exception). The Python body wraps
neither call in a `try`, so `Except`'s short-circuiting `do` is exactly
its control flow. Besides the `(success, failed)` pair the model returns
the trace of item-level actions taken, so that "no parsing and no network
call happened" is a statement about the result. -/

/-- A file on disk, as `process_path` sees it: stem and suffix of its
name. -/
structure FileInfo where
  stem : List Char
  suffix : List Char
deriving DecidableEq

/-- The target `process_path` receives: a regular file, or a directory
together with `sorted(path.glob('**/*.md'))`. -/
inductive PathTarget where
  | file (f : FileInfo)
  | dir (mdFiles : List FileInfo)

/-- An item-level action of `process_path`: a file was fed to
`parse_markdown_file`, a record was fed to `publish_post` (one network
call), or a non-markdown file was skipped with a notice. -/
inductive Event where
  | parsed (f : FileInfo)
  | publishCall (f : FileInfo)
  | skipped (f : FileInfo)
deriving DecidableEq

/-- `path.suffix.lower()`. -/
def suffixLower (f : FileInfo) : List Char :=
  f.suffix.map pyLower

/-- The loop `for md_file in sorted(path.glob('**/*.md'))` of
`process_path`: parse, publish, tally. An exception from either call
propagates out of the loop. -/
def processDir (parse : FileInfo → Except Exn PostData)
    (publish : PostData → Except Exn Bool) :
    List FileInfo → Except Exn ((Nat × Nat) × List Event)
  | [] => .ok ((0, 0), [])
  | f :: rest =>
    match parse f with
    | .error e => .error e
    | .ok pd =>
      match publish pd with
      | .error e => .error e
      | .ok ok =>
        match processDir parse publish rest with
        | .error e => .error e
        | .ok ((succ, fail), tr) =>
          .ok ((if ok then succ + 1 else succ,
                if ok then fail else fail + 1),
            .parsed f :: .publishCall f :: tr)

/-- `process_path` from `publish_blog.py`: a regular file is parsed and
published when `path.suffix.lower() in ['.md', '.markdown']` and skipped
with a notice otherwise; a directory runs the glob loop. Returns the
`(success, failed)` pair together with the action trace. -/
def process_path (parse : FileInfo → Except Exn PostData)
    (publish : PostData → Except Exn Bool) :
    PathTarget → Except Exn ((Nat × Nat) × List Event)
  | .file f =>
    if suffixLower f = ".md".toList ∨ suffixLower f = ".markdown".toList then
      match parse f with
      | .error e => .error e
      | .ok pd =>
        match publish pd with
        | .error e => .error e
        | .ok ok =>
          .ok ((if ok then 1 else 0, if ok then 0 else 1),
            [.parsed f, .publishCall f])
    else
      .ok ((0, 0), [.skipped f])
  | .dir files => processDir parse publish files

/-- The tail of `main`: after `success, failed = process_path(...)`, the
process exits with status 1 when `failed > 0` and falls off `main` (status
0) otherwise. -/
def mainExitCode (res : Nat × Nat) : Nat :=
  if res.2 > 0 then 1 else 0

/-- Whether an item ends up counted as a success: its parse returns a
record and `publish_post` returns `True` on that record. -/
def pubOK (parse : FileInfo → Except Exn PostData)
    (publish : PostData → Except Exn Bool) (f : FileInfo) : Bool :=
  match parse f with
  | .ok pd => match publish pd with | .ok b => b | .error _ => false
  | .error _ => false

/-- Whether an item raises no exception: parsing succeeds and the publish
call returns a boolean. -/
def itemNoExn (parse : FileInfo → Except Exn PostData)
    (publish : PostData → Except Exn Bool) (f : FileInfo) : Prop :=
  ∃ pd b, parse f = .ok pd ∧ publish pd = .ok b

/-- Absence of two adjacent hyphens — the spec's "single hyphens". -/
def noHyphenRun : List Char → Bool
  | [] => true
  | [_] => true
  | a :: b :: t => !(a = '-' && b = '-') && noHyphenRun (b :: t)

/-- The shape `YYYY-MM-DD HH:MM:SS`: 19 characters, digits in the date and
time positions, with `-`, a space, and `:` as separators. -/
def isDateTimeShape : List Char → Bool
  | [y1, y2, y3, y4, s1, m1, m2, s2, d1, d2, s3, h1, h2, s4, n1, n2, s5,
      e1, e2] =>
    y1.isDigit && y2.isDigit && y3.isDigit && y4.isDigit && (s1 == '-') &&
    m1.isDigit && m2.isDigit && (s2 == '-') && d1.isDigit && d2.isDigit &&
    (s3 == ' ') && h1.isDigit && h2.isDigit && (s4 == ':') &&
    n1.isDigit && n2.isDigit && (s5 == ':') && e1.isDigit && e2.isDigit
  | _ => false

/-- The shape `YYYY-MM-DD`. -/
def isDateShape : List Char → Bool
  | [y1, y2, y3, y4, s1, m1, m2, s2, d1, d2] =>
    y1.isDigit && y2.isDigit && y3.isDigit && y4.isDigit && (s1 == '-') &&
    m1.isDigit && m2.isDigit && (s2 == '-') && d1.isDigit && d2.isDigit
  | _ => false

/-- The slug shape asserted by the specification: only lowercase letters,
digits, and single hyphens, with no leading or trailing hyphen. -/
def claimedSlugShape (l : List Char) : Bool :=
  l.all (fun c => c.isLower || c.isDigit || c == '-') &&
  !(l.head? == some '-') && !(l.getLast? == some '-') && noHyphenRun l

/-! ## Concrete instances used by witnesses and counterexamples -/

/-- A fixed "current time" for concrete evaluations. -/
def now₀ : DateTimeV := ⟨2026, 10, 12, 0, 0, 0⟩

/-- A minimal post record with a given slug. -/
def examplePost (slug : List Char) : PostData :=
  { slug := slug, title := slug, content := [], excerpt := [],
    category := "general".toList, tags := [], featured_image := none,
    is_published := true, published_at := [] }

/-- A complete configuration (both environment variables set). -/
def exCfg : Config := ⟨"https://example.com/blog.php", "secret-key"⟩

/-- Front matter whose explicit title has no word characters. -/
def metaBangTitle : Metadata := { title := some "!!!".toList }

/-- A directory glob where the middle file is unparseable. -/
def exFiles : List FileInfo :=
  [⟨"a".toList, ".md".toList⟩, ⟨"bad".toList, ".md".toList⟩,
    ⟨"c".toList, ".md".toList⟩]

/-- A parse oracle that raises on the file with stem `bad`. -/
def exParse : FileInfo → Except Exn PostData := fun f =>
  if f.stem = "bad".toList then .error (.parseError "load failed")
  else .ok (examplePost f.stem)

/-- A publish oracle that always succeeds. -/
def exPublishOk : PostData → Except Exn Bool := fun _ => .ok true

/-- A directory glob of four markdown files. -/
def exFiles4 : List FileInfo :=
  [⟨"a".toList, ".md".toList⟩, ⟨"b".toList, ".md".toList⟩,
    ⟨"c".toList, ".md".toList⟩, ⟨"d".toList, ".md".toList⟩]

/-- A parse oracle that succeeds on every file. -/
def exParseAll : FileInfo → Except Exn PostData := fun f =>
  .ok (examplePost f.stem)

/-- A publish oracle under which exactly the post with slug `d` fails
(the remote API reports failure; `publish_post` returns `False`). -/
def exPublish3 : PostData → Except Exn Bool := fun pd =>
  .ok (decide (pd.slug ≠ "d".toList))

/-! ## Character-level lemmas -/

theorem isUpper_toNat {c : Char} (h : c.isUpper = true) :
    65 ≤ c.toNat ∧ c.toNat ≤ 90 := by
  simp only [Char.isUpper, Bool.and_eq_true, decide_eq_true_eq] at h
  exact ⟨UInt32.le_toNat_of_le (by decide) h.1,
    UInt32.toNat_le_of_le (by decide) h.2⟩

theorem ofNat_shift32_not_upper :
    ∀ n, n < 91 → 65 ≤ n → (Char.ofNat (n + 32)).isUpper = false := by
  decide

theorem pyLower_not_upper (c : Char) : (pyLower c).isUpper = false := by
  by_cases h : c.isUpper = true
  · obtain ⟨h1, h2⟩ := isUpper_toNat h
    rw [pyLower, if_pos h]
    exact ofNat_shift32_not_upper c.toNat (by omega) h1
  · rw [pyLower, if_neg h]
    exact Bool.not_eq_true _ |>.mp h

theorem pyLower_eq_self {c : Char} (h : c.isUpper = false) : pyLower c = c := by
  rw [pyLower, if_neg (by simp [h])]

theorem pyLower_idem (c : Char) : pyLower (pyLower c) = pyLower c :=
  pyLower_eq_self (pyLower_not_upper c)

theorem pyIsWord_not_space {c : Char} (h : pyIsWord c = true) :
    pyIsSpace c = false := by
  by_contra hs
  rw [Bool.not_eq_false] at hs
  simp only [pyIsSpace, Bool.or_eq_true, decide_eq_true_eq] at hs
  rcases hs with ((((h1 | h1) | h1) | h1) | h1) | h1 <;> subst h1 <;>
    revert h <;> decide

theorem dashOrSpace_false {c : Char} (h : dashOrSpace c = false) :
    c ≠ '-' ∧ pyIsSpace c = false := by
  simp only [dashOrSpace, Bool.or_eq_false_iff, decide_eq_false_iff_not] at h
  exact h

/-! ## List-level lemmas about the slugify pipeline -/

theorem map_self_of_mem {f : Char → Char} :
    ∀ {l : List Char}, (∀ c ∈ l, f c = c) → l.map f = l
  | [], _ => rfl
  | a :: t, h => by
    rw [List.map_cons, h a (by simp), map_self_of_mem fun c hc => h c (by simp [hc])]

theorem dropWhile_self_of_mem {p : Char → Bool} {l : List Char}
    (h : ∀ c ∈ l, p c = false) : l.dropWhile p = l := by
  cases l with
  | nil => rfl
  | cons a t => exact List.dropWhile_cons_of_neg (by simp [h a (by simp)])

theorem pyStrip_self {l : List Char} (h : ∀ c ∈ l, pyIsSpace c = false) :
    pyStrip l = l := by
  unfold pyStrip
  rw [dropWhile_self_of_mem h,
    dropWhile_self_of_mem (fun c hc => h c (List.mem_reverse.mp hc)),
    List.reverse_reverse]

theorem mem_pyStrip {c : Char} {l : List Char} (h : c ∈ pyStrip l) : c ∈ l := by
  unfold pyStrip at h
  rw [List.mem_reverse] at h
  have h2 := (List.dropWhile_sublist (l := (l.dropWhile pyIsSpace).reverse)
    pyIsSpace).subset h
  rw [List.mem_reverse] at h2
  exact (List.dropWhile_sublist pyIsSpace).subset h2

theorem mem_collapseAux {c : Char} :
    ∀ (l : List Char) (b : Bool), c ∈ collapseAux b l →
      c = '-' ∨ (c ∈ l ∧ dashOrSpace c = false)
  | [], b, h => by cases b <;> simp [collapseAux] at h
  | a :: t, b, h => by
    by_cases hd : dashOrSpace a = true
    · cases b with
      | true =>
        rw [collapseAux, if_pos hd] at h
        rcases mem_collapseAux t true h with h1 | ⟨h1, h2⟩
        · exact Or.inl h1
        · exact Or.inr ⟨List.mem_cons_of_mem a h1, h2⟩
      | false =>
        rw [collapseAux, if_pos hd] at h
        rcases List.mem_cons.mp h with h1 | h1
        · exact Or.inl h1
        · rcases mem_collapseAux t true h1 with h2 | ⟨h2, h3⟩
          · exact Or.inl h2
          · exact Or.inr ⟨List.mem_cons_of_mem a h2, h3⟩
    · have hd' : dashOrSpace a = false := by simpa using hd
      have h' : c ∈ a :: collapseAux false t := by
        cases b <;> rw [collapseAux, if_neg hd] at h <;> exact h
      rcases List.mem_cons.mp h' with h1 | h1
      · subst h1
        exact Or.inr ⟨by simp, hd'⟩
      · rcases mem_collapseAux t false h1 with h2 | ⟨h2, h3⟩
        · exact Or.inl h2
        · exact Or.inr ⟨List.mem_cons_of_mem a h2, h3⟩

theorem collapseAux_true_head :
    ∀ l : List Char, (collapseAux true l).head? ≠ some '-'
  | [] => by simp [collapseAux]
  | a :: t => by
    by_cases hd : dashOrSpace a = true
    · rw [collapseAux, if_pos hd]
      exact collapseAux_true_head t
    · rw [collapseAux, if_neg hd, List.head?_cons]
      intro h
      have h' : a = '-' := Option.some.inj h
      exact hd (by rw [h']; decide)

theorem noHyphenRun_cons {x : Char} {l : List Char}
    (hl : noHyphenRun l = true)
    (hx : ∀ y, l.head? = some y → (x = '-' ∧ y = '-') → False) :
    noHyphenRun (x :: l) = true := by
  cases l with
  | nil => rfl
  | cons y t =>
    simp only [noHyphenRun, Bool.and_eq_true, Bool.not_eq_true']
    refine ⟨?_, hl⟩
    by_contra hc
    rw [Bool.not_eq_false, Bool.and_eq_true, decide_eq_true_eq,
      decide_eq_true_eq] at hc
    exact hx y rfl hc

theorem noHyphenRun_tail {x : Char} {l : List Char}
    (h : noHyphenRun (x :: l) = true) : noHyphenRun l = true := by
  cases l with
  | nil => rfl
  | cons y t =>
    simp only [noHyphenRun, Bool.and_eq_true] at h
    exact h.2

theorem noHyphenRun_collapseAux :
    ∀ (l : List Char) (b : Bool), noHyphenRun (collapseAux b l) = true
  | [], b => by cases b <;> rfl
  | a :: t, b => by
    by_cases hd : dashOrSpace a = true
    · cases b with
      | true =>
        rw [collapseAux, if_pos hd]
        exact noHyphenRun_collapseAux t true
      | false =>
        rw [collapseAux, if_pos hd]
        refine noHyphenRun_cons (noHyphenRun_collapseAux t true) ?_
        intro y hy hc
        exact collapseAux_true_head t (hc.2 ▸ hy)
    · have key : noHyphenRun (a :: collapseAux false t) = true := by
        refine noHyphenRun_cons (noHyphenRun_collapseAux t false) ?_
        intro y _ hc
        exact hd (by rw [hc.1]; decide)
      cases b <;> rw [collapseAux, if_neg hd] <;> exact key

theorem collapseAux_fixed :
    ∀ l : List Char, (∀ c ∈ l, pyIsSpace c = false) → noHyphenRun l = true →
      collapseAux false l = l
  | [], _, _ => rfl
  | a :: t, hs, hr => by
    by_cases hd : dashOrSpace a = true
    · have ha : a = '-' := by
        have h0 := hs a (List.mem_cons_self a t)
        simp only [dashOrSpace, Bool.or_eq_true, decide_eq_true_eq] at hd
        rcases hd with h | h
        · exact h
        · rw [h0] at h
          exact absurd h (by simp)
      rw [collapseAux, if_pos hd]
      have htail : collapseAux true t = t := by
        cases t with
        | nil => rfl
        | cons d t' =>
          have hdne : d ≠ '-' := by
            rw [ha] at hr
            simp only [noHyphenRun, Bool.and_eq_true, Bool.not_eq_true'] at hr
            have h1 := hr.1
            simp only [Bool.and_eq_false_iff, decide_eq_false_iff_not] at h1
            rcases h1 with h | h
            · simp at h
            · exact h
          have hdnot : dashOrSpace d = false := by
            have h0 := hs d (List.mem_cons_of_mem a (List.mem_cons_self d t'))
            simp [dashOrSpace, hdne, h0]
          have e3 : collapseAux false (d :: t') = d :: t' :=
            collapseAux_fixed (d :: t')
              (fun c hc => hs c (List.mem_cons_of_mem a hc))
              (noHyphenRun_tail hr)
          have e4 : collapseAux true (d :: t') = d :: collapseAux false t' := by
            rw [collapseAux, if_neg (by simp [hdnot])]
          have e5 : collapseAux false (d :: t') = d :: collapseAux false t' := by
            rw [collapseAux, if_neg (by simp [hdnot])]
          rw [e4, ← e5, e3]
      rw [htail, ha]
    · rw [collapseAux, if_neg hd]
      rw [collapseAux_fixed t (fun c hc => hs c (List.mem_cons_of_mem a hc))
        (noHyphenRun_tail hr)]

/-- Characterization of the characters a slug can contain: each is either
the replacement hyphen or a word character that survived the filter, is
not whitespace, and is fixed by lowercasing. -/
theorem slugify_chars {c : Char} {s : List Char} (h : c ∈ slugify s) :
    (c = '-' ∨ pyIsWord c = true) ∧ pyIsSpace c = false ∧ pyLower c = c ∧
      keepChar c = true := by
  unfold slugify collapse at h
  rcases mem_collapseAux _ false h with h1 | ⟨h1, h2⟩
  · subst h1
    exact ⟨Or.inl rfl, by decide, by decide, by decide⟩
  · have hk : keepChar c = true := List.of_mem_filter h1
    have hcs := dashOrSpace_false h2
    have hw : pyIsWord c = true := by
      simp only [keepChar, Bool.or_eq_true] at hk
      rcases hk with (hk | hk) | hk
      · exact hk
      · rw [hcs.2] at hk
        exact absurd hk (by simp)
      · exact absurd (of_decide_eq_true hk) hcs.1
    obtain ⟨d, _, hd⟩ :=
      List.mem_map.mp (mem_pyStrip (List.mem_of_mem_filter h1))
    have hfix : pyLower c = c := by rw [← hd, pyLower_idem]
    exact ⟨Or.inr hw, pyIsWord_not_space hw, hfix, hk⟩

/-- A list produced by `slugify` never has two adjacent hyphens. -/
theorem noHyphenRun_slugify (s : List Char) :
    noHyphenRun (slugify s) = true := by
  unfold slugify collapse
  exact noHyphenRun_collapseAux _ false

/-! ## Lemmas about `processDir` -/

theorem processDir_eq_ok (parse : FileInfo → Except Exn PostData)
    (publish : PostData → Except Exn Bool) :
    ∀ files : List FileInfo, (∀ f ∈ files, itemNoExn parse publish f) →
      processDir parse publish files =
        .ok ((files.countP (pubOK parse publish),
              files.countP fun f => !pubOK parse publish f),
          files.flatMap fun f => [.parsed f, .publishCall f])
  | [], _ => rfl
  | f :: rest, h => by
    obtain ⟨pd, b, hp, hq⟩ := h f (List.mem_cons_self f rest)
    have ih := processDir_eq_ok parse publish rest
      (fun g hg => h g (List.mem_cons_of_mem f hg))
    have hfOK : pubOK parse publish f = b := by
      simp [pubOK, hp, hq]
    rw [processDir]
    simp only [hp, hq, ih]
    cases b <;>
      simp [List.countP_cons, hfOK, List.flatMap_cons, Nat.add_comm]

/-! ## Remaining small helpers -/

theorem countP_add_countP_not {α : Type} (p : α → Bool) :
    ∀ l : List α, l.countP p + l.countP (fun a => !p a) = l.length
  | [] => rfl
  | a :: t => by
    cases h : p a <;>
      simp [List.countP_cons, h, ← countP_add_countP_not p t] <;> omega

theorem digitChar_isDigit {n : Nat} (h : n < 10) :
    (digitChar n).isDigit = true := by
  interval_cases n <;> decide

theorem pyTitleAux_length :
    ∀ (b : Bool) (l : List Char), (pyTitleAux b l).length = l.length
  | _, [] => rfl
  | b, c :: t => by
    rw [pyTitleAux]
    simp [pyTitleAux_length _ t]

/-! ## The claims -/

/-- Claim C6: slug derivation is idempotent — for every string `s`,
`slugify (slugify s) = slugify s`; in particular an already-slugified
string is returned unchanged. -/
theorem slugify_idempotent (s : List Char) :
    slugify (slugify s) = slugify s := by
  have hchars := fun c (hc : c ∈ slugify s) => slugify_chars hc
  have hnospace : ∀ c ∈ slugify s, pyIsSpace c = false :=
    fun c hc => (hchars c hc).2.1
  have h1 : (slugify s).map pyLower = slugify s :=
    map_self_of_mem fun c hc => (hchars c hc).2.2.1
  have h2 : pyStrip (slugify s) = slugify s := pyStrip_self hnospace
  have h3 : (slugify s).filter keepChar = slugify s :=
    List.filter_eq_self.mpr fun c hc => (hchars c hc).2.2.2
  show collapse ((pyStrip ((slugify s).map pyLower)).filter keepChar) =
    slugify s
  rw [h1, h2, h3]
  exact collapseAux_fixed _ hnospace (noHyphenRun_slugify s)

/-- Claim C4, counterexample: the title `"-A_b-"` contains an uppercase
letter, yet its slug `"-a_b-"` contains an underscore and has a leading
and a trailing hyphen, violating the claimed slug shape. -/
theorem slug_shape_counterexample :
    "-A_b-".toList.any Char.isUpper = true ∧
      claimedSlugShape (slugify "-A_b-".toList) = false := by
  decide

/-- Claim C4, amended: every character of a slug is a lowercase letter, a
digit, an underscore, or a hyphen, and no two hyphens are adjacent;
leading or trailing hyphens can, however, survive from the title. -/
theorem slugify_charset (s : List Char) :
    (∀ c ∈ slugify s,
      c.isLower = true ∨ c.isDigit = true ∨ c = '_' ∨ c = '-') ∧
    noHyphenRun (slugify s) = true := by
  refine ⟨?_, noHyphenRun_slugify s⟩
  intro c hc
  obtain ⟨hw, _, hfix, _⟩ := slugify_chars hc
  rcases hw with h | h
  · exact Or.inr (Or.inr (Or.inr h))
  · simp only [pyIsWord, Bool.or_eq_true, decide_eq_true_eq] at h
    rcases h with (h | h) | h
    · have hup : c.isUpper = false := by
        rw [← hfix]
        exact pyLower_not_upper c
      simp only [Char.isAlpha, hup, Bool.false_or] at h
      exact Or.inl h
    · exact Or.inr (Or.inl h)
    · exact Or.inr (Or.inr (Or.inl h))

/-- Witness for the amended C4 theorem at a concrete title and character. -/
theorem slugify_charset_witness :
    ('h' ∈ slugify "Hello World".toList) ∧
      ('h'.isLower = true ∨ 'h'.isDigit = true ∨ 'h' = '_' ∨ 'h' = '-') :=
  ⟨by decide,
    (slugify_charset "Hello World".toList).1 'h' (by decide)⟩

/-- Claim C5, counterexample: a file whose front matter carries the title
`"!!!"` and no explicit slug is accepted, yet the emitted record's slug is
the empty string (`slugify "!!!"` deletes every character). -/
theorem parse_empty_slug_counterexample :
    (parse_markdown_file "post".toList metaBangTitle [] now₀).slug = [] ∧
      (parse_markdown_file "post".toList metaBangTitle [] now₀).title =
        "!!!".toList := by
  decide

/-- Claim C5, amended: the emitted record's `title` is non-empty whenever
the front matter's explicit title (if any) is non-empty and the file's
stem is non-empty; the `slug` field, by contrast, can be empty. -/
theorem parse_title_nonempty (stem : List Char) (md : Metadata)
    (html : List Char) (now : DateTimeV)
    (hstem : stem ≠ [])
    (htitle : ∀ t, md.title = some t → t ≠ []) :
    (parse_markdown_file stem md html now).title ≠ [] := by
  have hval : (parse_markdown_file stem md html now).title =
      md.title.getD
        (pyTitleCase (stem.map fun c => if c = '-' then ' ' else c)) := rfl
  rw [hval]
  cases hmt : md.title with
  | some t =>
    rw [Option.getD_some]
    exact htitle t hmt
  | none =>
    rw [Option.getD_none]
    intro hcon
    apply hstem
    have hlen := congrArg List.length hcon
    simp only [pyTitleCase] at hlen
    rw [pyTitleAux_length, List.length_map, List.length_nil] at hlen
    exact List.length_eq_zero.mp hlen

/-- Witness for the amended C5 theorem: a file `post.md` with no front
matter yields the title `Post`. -/
theorem parse_title_nonempty_witness :
    (parse_markdown_file "post".toList {} [] now₀).title ≠ [] :=
  parse_title_nonempty "post".toList {} [] now₀ (by decide)
    (fun _ ht => nomatch ht)

/-- Claim C7: with `draft = true`, the payload `publish_post` sends to the
create endpoint always carries `is_published = false`, whatever the
record's own `published` value was. -/
theorem draft_forces_unpublished (cfg : Config) (pd : PostData)
    (p : PostData) (h : sentPayload cfg pd true = some p) :
    p.is_published = false := by
  unfold sentPayload at h
  by_cases hc : cfg.ok = true
  · rw [if_pos hc] at h
    rw [← Option.some.inj h]
    rfl
  · rw [if_neg hc] at h
    exact absurd h (by simp)

/-- Witness for C7: concrete configuration and a record with
`published: true`. -/
theorem draft_forces_unpublished_witness :
    (outgoingPayload (examplePost "x".toList) true).is_published = false :=
  draft_forces_unpublished exCfg (examplePost "x".toList)
    (outgoingPayload (examplePost "x".toList) true) (by decide)

/-- Claim C8: a front-matter `datetime` normalizes to the 19-character
`YYYY-MM-DD HH:MM:SS` shape, a bare date to `YYYY-MM-DD`, and an absent
key or empty string to the current local time rendered at second
precision. The bounds are the ranges Python's `datetime`/`date` fields
always satisfy. -/
theorem published_at_normalization (now v : DateTimeV) (d : DateV)
    (hy : v.year < 10000) (hmo : v.month < 100) (hda : v.day < 100)
    (hh : v.hour < 100) (hmi : v.minute < 100) (hse : v.second < 100)
    (hy2 : d.year < 10000) (hmo2 : d.month < 100) (hda2 : d.day < 100) :
    isDateTimeShape (format_published_at now (some (.dt v))) = true ∧
    isDateShape (format_published_at now (some (.dateOnly d))) = true ∧
    format_published_at now none = fmtDateTime now ∧
    format_published_at now (some (.str [])) = fmtDateTime now := by
  refine ⟨?_, ?_, rfl, rfl⟩
  · obtain ⟨y, mo, da, ho, mi, se⟩ := v
    simp only at hy hmo hda hh hmi hse
    simp only [format_published_at, fmtDateTime, pad4, pad2,
      List.cons_append, List.nil_append, isDateTimeShape,
      Bool.and_eq_true, beq_self_eq_true]
    repeat' apply And.intro
    all_goals first
      | trivial
      | exact digitChar_isDigit (by omega)
  · obtain ⟨y, mo, da⟩ := d
    simp only at hy2 hmo2 hda2
    simp only [format_published_at, fmtDate, pad4, pad2,
      List.cons_append, List.nil_append, isDateShape,
      Bool.and_eq_true, beq_self_eq_true]
    repeat' apply And.intro
    all_goals first
      | trivial
      | exact digitChar_isDigit (by omega)

/-- Witness for C8 at the spec's own example values. -/
theorem published_at_normalization_witness :
    isDateTimeShape
      (format_published_at now₀ (some (.dt ⟨2024, 3, 1, 9, 0, 0⟩))) = true ∧
    isDateShape
      (format_published_at now₀ (some (.dateOnly ⟨2024, 3, 1⟩))) = true ∧
    format_published_at now₀ none = fmtDateTime now₀ ∧
    format_published_at now₀ (some (.str [])) = fmtDateTime now₀ :=
  published_at_normalization now₀ ⟨2024, 3, 1, 9, 0, 0⟩ ⟨2024, 3, 1⟩
    (by decide) (by decide) (by decide) (by decide) (by decide) (by decide)
    (by decide) (by decide) (by decide)

/-- Claim C9, counterexample: with full configuration, an HTTP 200
response whose body parses as the JSON array `[]` makes `publish_post`
raise `AttributeError` (line 146 calls `.get` on a list), escaping its
boundary instead of returning `False`. -/
theorem publish_post_nondict_raises :
    publish_post exCfg (examplePost "x".toList) false
      (.response 200 (some (.arr []))) = .error .attributeError := rfl

/-- Claim C9, amended: when the parsed body is a JSON object, the call
returns `True` exactly when the status is 200 and the `success` field is
truthy, and `False` otherwise; network errors and non-JSON bodies return
`False`. A body parsing to JSON that is not an object, however, raises
`AttributeError`. -/
theorem publish_post_result_characterization (cfg : Config) (pd : PostData)
    (draft : Bool) (hc : cfg.ok = true) :
    (∀ (st : Nat) (fields : List (String × JsonVal)),
      publish_post cfg pd draft (.response st (some (.obj fields))) =
        .ok (decide (st = 200) && (objGet fields "success").truthy)) ∧
    (∀ msg, publish_post cfg pd draft (.netError msg) = .ok false) ∧
    (∀ st, publish_post cfg pd draft (.response st none) = .ok false) := by
  refine ⟨?_, ?_, ?_⟩
  · intro st fields
    by_cases hst : st = 200
    · subst hst
      cases hv : (objGet fields "success").truthy <;>
        simp [publish_post, hc, pyGet, hv]
    · simp [publish_post, hc, hst, pyGet]
  · intro msg
    simp [publish_post, hc]
  · intro st
    simp [publish_post, hc]

/-- Witness for the amended C9 theorem at a concrete successful call. -/
theorem publish_post_result_characterization_witness :
    publish_post exCfg (examplePost "x".toList) false
      (.response 200 (some (.obj [("success", .bool true)]))) =
      .ok (decide ((200 : Nat) = 200) &&
        (objGet [("success", .bool true)] "success").truthy) :=
  (publish_post_result_characterization exCfg (examplePost "x".toList)
    false (by decide)).1 200 [("success", .bool true)]

/-- Claim C10: a regular file whose lowercased suffix is neither `.md` nor
`.markdown` is skipped with a notice — no parse, no publish call — the
result is `(0, 0)`, and `main` then exits with status 0. -/
theorem non_markdown_file_skipped
    (parse : FileInfo → Except Exn PostData)
    (publish : PostData → Except Exn Bool) (f : FileInfo)
    (h1 : suffixLower f ≠ ".md".toList)
    (h2 : suffixLower f ≠ ".markdown".toList) :
    process_path parse publish (.file f) = .ok ((0, 0), [.skipped f]) ∧
      mainExitCode (0, 0) = 0 := by
  refine ⟨?_, rfl⟩
  rw [process_path, if_neg (not_or.mpr ⟨h1, h2⟩)]

/-- Witness for C10: a `.txt` file. -/
theorem non_markdown_file_skipped_witness :
    process_path exParseAll exPublish3
        (.file ⟨"notes".toList, ".txt".toList⟩) =
      .ok ((0, 0), [.skipped ⟨"notes".toList, ".txt".toList⟩]) ∧
      mainExitCode (0, 0) = 0 :=
  non_markdown_file_skipped exParseAll exPublish3
    ⟨"notes".toList, ".txt".toList⟩ (by decide) (by decide)

/-- Claim C1: evaluation of `list_posts` at the "failing input" — a
successful GET whose body is a JSON object with a `posts` array. The
table-printing block (source lines 222-237) sits inside the
`except ValueError` handler after its `return`, so nothing at all is
printed: the function's output is `[]`, not the claimed tabular summary
and total. -/
theorem list_posts_success_prints_nothing :
    list_posts exCfg (.response 200 (some (.obj [("posts",
      .arr [.obj [("slug", .str "a"), ("title", .str "A"),
        ("category", .str "general"),
        ("published_at", .str "2024-03-01 09:00:00")]])]))) = [] := by
  decide

/-- Claim C2, counterexample: in a directory of three markdown files whose
middle file is unparseable, the parse error propagates out of
`process_path` — it is not converted into a diagnostic plus a failure
tally, and the third file is never reached. -/
theorem dir_batch_aborted_by_parse_error :
    process_path exParse exPublishOk (.dir exFiles) =
      .error (.parseError "load failed") := rfl

/-- Claim C2, amended: per-item *publish* failures are contained at the
item boundary — when no item raises, the whole directory is processed,
every file is parsed and published once, and failures only increment the
failure count. A parse error, by contrast, propagates and aborts the
batch. -/
theorem dir_batch_tallies_publish_failures
    (parse : FileInfo → Except Exn PostData)
    (publish : PostData → Except Exn Bool) (files : List FileInfo)
    (h : ∀ f ∈ files, itemNoExn parse publish f) :
    process_path parse publish (.dir files) =
      .ok ((files.countP (pubOK parse publish),
            files.countP fun f => !pubOK parse publish f),
        files.flatMap fun f => [.parsed f, .publishCall f]) :=
  processDir_eq_ok parse publish files h

/-- Witness for the amended C2 theorem on a concrete four-file batch. -/
theorem dir_batch_tallies_publish_failures_witness :
    process_path exParseAll exPublish3 (.dir exFiles4) =
      .ok ((exFiles4.countP (pubOK exParseAll exPublish3),
            exFiles4.countP fun f => !pubOK exParseAll exPublish3 f),
        exFiles4.flatMap fun f => [.parsed f, .publishCall f]) :=
  dir_batch_tallies_publish_failures exParseAll exPublish3 exFiles4
    (fun f _ => ⟨examplePost f.stem, _, rfl, rfl⟩)

/-- Claim C3: a directory of exactly four markdown files in which no item
raises and exactly one publish call reports failure yields the pair
`(3, 1)`, and `main` then exits with a non-zero status. -/
theorem dir_three_published_one_failed
    (parse : FileInfo → Except Exn PostData)
    (publish : PostData → Except Exn Bool) (files : List FileInfo)
    (hlen : files.length = 4)
    (hok : ∀ f ∈ files, itemNoExn parse publish f)
    (hfail : files.countP (fun f => !pubOK parse publish f) = 1) :
    process_path parse publish (.dir files) =
      .ok ((3, 1), files.flatMap fun f => [.parsed f, .publishCall f]) ∧
      mainExitCode (3, 1) ≠ 0 := by
  have h := processDir_eq_ok parse publish files hok
  have hsum := countP_add_countP_not (pubOK parse publish) files
  have hsucc : files.countP (pubOK parse publish) = 3 := by omega
  constructor
  · show processDir parse publish files = _
    rw [h, hsucc, hfail]
  · decide

/-- Witness for C3: four files `a b c d`, with only `d` failing at the
remote API. -/
theorem dir_three_published_one_failed_witness :
    process_path exParseAll exPublish3 (.dir exFiles4) =
      .ok ((3, 1), exFiles4.flatMap fun f => [.parsed f, .publishCall f]) ∧
      mainExitCode (3, 1) ≠ 0 :=
  dir_three_published_one_failed exParseAll exPublish3 exFiles4
    (by decide) (fun f _ => ⟨examplePost f.stem, _, rfl, rfl⟩) (by decide)

end Blog
